import Mathlib

/-!
Shallow embedding of the nutrition dashboard (`src/app.py`).

Real-valued quantities are embedded as exact rationals (`ℚ`); the Python
source computes with IEEE doubles, but every constant in the program is a
short decimal, so the rational value is the intended mathematical value of
each formula.  Enumerated inputs (gender, activity level, diet type, goal)
reach the engine as strings in the source and are embedded as `String`.
The fallible dictionary lookup for the activity multiplier (a Python
`KeyError` on an unrecognized key) is embedded as an `Option`.
-/

namespace NutritionApp

/-- BMR from `calculate_calories` (app.py lines 148-152): Harris-Benedict
revised equations, `if gender == "Male" ... else ...`.  Note the source
branches only on equality with `"Male"`; every other string takes the
`else` (Female) branch. -/
def bmr (weight height age : ℚ) (gender : String) : ℚ :=
  if gender = "Male" then
    88.362 + (13.397 * weight) + (4.799 * height) - (5.677 * age)
  else
    447.593 + (9.247 * weight) + (3.098 * height) - (4.330 * age)

/-- Activity multiplier dictionary lookup (app.py lines 155-161).  The
Python `dict[...]` raises `KeyError` for a key outside the five entries;
that failure is embedded as `none`. -/
def activity_mult (activity_level : String) : Option ℚ :=
  if activity_level = "Sedentary" then some 1.2
  else if activity_level = "Light" then some 1.375
  else if activity_level = "Moderate" then some 1.55
  else if activity_level = "Active" then some 1.725
  else if activity_level = "Very Active" then some 1.9
  else none

/-- Goal adjustment (app.py lines 166-171): `if goal == "Lose Weight"`
subtract 500, `elif goal == "Gain Muscle"` add 300, `else` return the
TDEE unchanged. -/
def goal_adjust (tdee : ℚ) (goal : String) : ℚ :=
  if goal = "Lose Weight" then tdee - 500
  else if goal = "Gain Muscle" then tdee + 300
  else tdee

/-- TDEE (app.py line 163): `tdee = bmr * activity_mult`; the lookup
failure propagates. -/
def tdee (bmr_val : ℚ) (activity_level : String) : Option ℚ :=
  (activity_mult activity_level).map (fun m => bmr_val * m)

/-- The whole `calculate_calories` pipeline (app.py lines 147-171):
BMR, then TDEE = BMR × activity multiplier, then the goal offset.
`none` models the `KeyError` raised by the multiplier lookup. -/
def calculate_calories (weight height age : ℚ)
    (gender activity_level goal : String) : Option ℚ :=
  (tdee (bmr weight height age gender) activity_level).map
    (fun t => goal_adjust t goal)

/-- BMI (app.py line 183): `weight / ((height/100) ** 2)`. -/
def bmi (weight height : ℚ) : ℚ :=
  weight / ((height / 100) ^ 2)

/-- BMI category (app.py line 184), the Python conditional expression in
source order: `"Normal" if 18.5 <= bmi < 25 else "Underweight" if
bmi < 18.5 else "Overweight" if bmi < 30 else "Obese"`. -/
def bmi_category (bmi : ℚ) : String :=
  if 18.5 ≤ bmi ∧ bmi < 25 then "Normal"
  else if bmi < 18.5 then "Underweight"
  else if bmi < 30 then "Overweight"
  else "Obese"

/-- Water goal (app.py line 188): 35 ml per kg body weight. -/
def water_intake (weight : ℚ) : ℚ := weight * 35

/-- One row of the diet-type ratio table. -/
structure MacroRatios where
  carbs : ℚ
  protein : ℚ
  fat : ℚ
deriving DecidableEq

/-- The `macro_splits` dictionary (app.py lines 195-202), as a partial
lookup: `none` for a key not in the table. -/
def macro_splits (diet_type : String) : Option MacroRatios :=
  if diet_type = "Balanced" then some ⟨0.5, 0.25, 0.25⟩
  else if diet_type = "Keto" then some ⟨0.05, 0.2, 0.75⟩
  else if diet_type = "High-Protein" then some ⟨0.3, 0.4, 0.3⟩
  else if diet_type = "Low-Carb" then some ⟨0.2, 0.35, 0.45⟩
  else if diet_type = "Vegan" then some ⟨0.55, 0.2, 0.25⟩
  else if diet_type = "Mediterranean" then some ⟨0.45, 0.25, 0.3⟩
  else none

/-- `macro_splits.get(diet_type, macro_splits["Balanced"])`
(app.py line 204): unrecognized diet types silently fall back to the
Balanced row. -/
def macros (diet_type : String) : MacroRatios :=
  match macro_splits diet_type with
  | some r => r
  | none => ⟨0.5, 0.25, 0.25⟩

/-- The three macros rendered by the dashboard loop (app.py line 209). -/
inductive Macro
  | Carbs
  | Protein
  | Fat
deriving DecidableEq

/-- Grams per macro (app.py lines 211-215): `(calories * ratio) / 4` for
Carbs and Protein, `(calories * ratio) / 9` for Fat. -/
def macro_grams (calories ratio : ℚ) (m : Macro) : ℚ :=
  match m with
  | .Fat => (calories * ratio) / 9
  | _ => (calories * ratio) / 4

/-- Calories per macro (app.py lines 213-216): grams × 4 for Carbs and
Protein, grams × 9 for Fat. -/
def macro_calories (calories ratio : ℚ) (m : Macro) : ℚ :=
  match m with
  | .Fat => macro_grams calories ratio .Fat * 9
  | _ => macro_grams calories ratio m * 4

/-- One entry of `food_log.json` (app.py lines 408-413). `calories` comes
from a Streamlit integer input bounded to [0, 2000], hence `ℕ`. -/
structure FoodLogEntry where
  timestamp : String
  food : String
  calories : ℕ
  date : String
deriving DecidableEq

/-- The state of the backing file `food_log.json`: absent, present with a
well-formed JSON array of entries, or present with content `json.load`
cannot parse. -/
inductive LogFile
  | missing
  | stored (entries : List FoodLogEntry)
  | malformed
deriving DecidableEq

/-- The exception raised by `json.load` on malformed content, caught by
the handlers and shown via `st.error`. -/
inductive PersistenceError
  | readError
deriving DecidableEq

/-- Reading the log (app.py lines 401-405 and 430-433): a missing file is
treated as the empty list, well-formed content is returned as is, and
malformed content raises (`.error`). -/
def loadAll : LogFile → Except PersistenceError (List FoodLogEntry)
  | .missing => .ok []
  | .stored l => .ok l
  | .malformed => .error .readError

/-- The Log Food button handler (app.py lines 395-423): load-or-init the
collection, append the entry, write the whole collection back; on a read
exception the `except` branch shows an error and the file is left as it
was (the write is never reached). Returns the new file state and the
outcome surfaced to the user. -/
def append (e : FoodLogEntry) (file : LogFile) :
    LogFile × Except PersistenceError Unit :=
  match loadAll file with
  | .ok prior => (.stored (prior ++ [e]), .ok ())
  | .error err => (file, .error err)

/-- The date-filtering and aggregation of the Today Summary loader
(app.py lines 435-446): keep entries whose `date` equals today (string
equality), sum their `calories`, and display `today_entries[-5:]`, the
last five matches in original order. -/
def summarizeDay (log : List FoodLogEntry) (today : String) :
    ℕ × List FoodLogEntry :=
  let today_entries := log.filter (fun e => e.date = today)
  ((today_entries.map (fun e => e.calories)).sum,
   today_entries.drop (today_entries.length - 5))

/-- The Today Summary section including the file read (app.py lines 430-451):
malformed content surfaces the read error, otherwise the loaded log is
summarized. -/
def todaysSummary (file : LogFile) (today : String) :
    Except PersistenceError (ℕ × List FoodLogEntry) :=
  (loadAll file).map (fun log => summarizeDay log today)

/-- Outcome of one remote chat-completion round trip, as seen by the caller: a response with choices, a response without choices
(`response.choices` empty/false), or an exception raised by the call. -/
inductive RemoteOutcome
  | success (text : String)
  | emptyResponse
  | failure (msg : String)
deriving DecidableEq

/-- Whether `get_azure_ai_client` produced a client (app.py lines 15-31):
`none` models the missing-configuration / failed-initialization case. -/
inductive ClientState
  | ready
  | unavailable
deriving DecidableEq

/-- `get_ai_response` (app.py lines 33-70): no client → fixed
unavailability string; response without choices → fixed retry string;
exception → a string embedding `str(e)`; otherwise the model text. It
always returns a string and never re-raises. -/
def get_ai_response (client : ClientState) (call : RemoteOutcome) : String :=
  match client with
  | .unavailable => "AI service is currently unavailable. Please try again later."
  | .ready =>
    match call with
    | .success t => t
    | .emptyResponse => "I\x27m having trouble generating a response right now. Please try again."
    | .failure msg => "Sorry, I encountered an error: " ++ msg ++ ". Please try again."

/-- `generate_meal_plan_ai` (app.py lines 72-115): no client → `None`;
exception → `st.error` then `None`; response without choices → `None`;
otherwise the model text. It never re-raises, but every failure path
returns `None` rather than any fallback string. -/
def generate_meal_plan_ai (client : ClientState) (call : RemoteOutcome) :
    Option String :=
  match client with
  | .unavailable => none
  | .ready =>
    match call with
    | .success t => some t
    | .emptyResponse => none
    | .failure _ => none

end NutritionApp

open NutritionApp

/-- The Male branch of `bmr`. -/
lemma bmr_male_eq (w h a : ℚ) :
    bmr w h a "Male" = 88.362 + 13.397 * w + 4.799 * h - 5.677 * a := by
  simp [bmr]

/-- Every gender other than `"Male"` takes the else branch of `bmr`. -/
lemma bmr_of_ne_male {g : String} (hg : ¬g = "Male") (w h a : ℚ) :
    bmr w h a g = 447.593 + 9.247 * w + 3.098 * h - 4.330 * a := by
  simp [bmr, hg]

/-- C1, counterexample to the quoted example: for weight 70, height 175,
age 30, Male, the code computes a BMR of 1695.667, not the claimed
1695.022. -/
theorem C1_example_value_refuted :
    bmr 70 175 30 "Male" ≠ 1695.022 ∧ bmr 70 175 30 "Male" = 1695.667 := by
  constructor
  · rw [bmr_male_eq]; norm_num
  · rw [bmr_male_eq]; norm_num

/-- C1 (amended): for every validated profile the BMR equals the
Harris-Benedict revised equation selected by gender —
`88.362 + 13.397·w + 4.799·h − 5.677·a` for Male and
`447.593 + 9.247·w + 3.098·h − 4.330·a` for Female — and the example
profile weight=70, height=175, age=30, Male gives BMR = 1695.667. -/
theorem C1_bmr_harris_benedict : ∀ w h a : ℚ,
    bmr w h a "Male" = 88.362 + 13.397 * w + 4.799 * h - 5.677 * a ∧
    bmr w h a "Female" = 447.593 + 9.247 * w + 3.098 * h - 4.330 * a ∧
    bmr 70 175 30 "Male" = 1695.667 := by
  intro w h a
  refine ⟨bmr_male_eq w h a, bmr_of_ne_male (by decide) w h a, ?_⟩
  rw [bmr_male_eq]; norm_num

/-- C2: TDEE is BMR times the fixed multiplier for each of the five
recognized activity levels, and for any other activity level the
computation fails (the dictionary lookup raises) instead of using a
default multiplier. -/
theorem C2_tdee_multipliers : ∀ b : ℚ,
    tdee b "Sedentary" = some (b * 1.2) ∧
    tdee b "Light" = some (b * 1.375) ∧
    tdee b "Moderate" = some (b * 1.55) ∧
    tdee b "Active" = some (b * 1.725) ∧
    tdee b "Very Active" = some (b * 1.9) ∧
    ∀ lvl : String,
      lvl ∉ (["Sedentary", "Light", "Moderate", "Active", "Very Active"] : List String) →
      tdee b lvl = none := by
  intro b
  refine ⟨by simp [tdee, activity_mult], by simp [tdee, activity_mult],
    by simp [tdee, activity_mult], by simp [tdee, activity_mult],
    by simp [tdee, activity_mult], ?_⟩
  intro lvl hlvl
  simp only [List.mem_cons, List.not_mem_nil, or_false, not_or] at hlvl
  obtain ⟨h1, h2, h3, h4, h5⟩ := hlvl
  simp [tdee, activity_mult, h1, h2, h3, h4, h5]

/-- Witness for C2 at a concrete unrecognized activity level. -/
theorem C2_tdee_multipliers_witness :
    "Jogging" ∉ (["Sedentary", "Light", "Moderate", "Active", "Very Active"] : List String) ∧
    tdee 100 "Jogging" = none := by
  have h : "Jogging" ∉ (["Sedentary", "Light", "Moderate", "Active", "Very Active"] : List String) := by
    decide
  exact ⟨h, (C2_tdee_multipliers 100).2.2.2.2.2 "Jogging" h⟩

/-- C3, counterexample: for a goal outside the four recognized values the
code does not fail — the else branch returns the TDEE unchanged, and the
whole pipeline still succeeds. -/
theorem C3_unknown_goal_not_rejected :
    goal_adjust 2000 "Bulk Up" = 2000 ∧
    calculate_calories 70 175 30 "Male" "Sedentary" "Bulk Up" = some 2034.8004 := by
  constructor
  · simp [goal_adjust]
  · show (tdee (bmr 70 175 30 "Male") "Sedentary").map (fun t => goal_adjust t "Bulk Up") = _
    rw [bmr_male_eq]
    norm_num [tdee, activity_mult, goal_adjust]
    rw [if_neg (by decide), if_neg (by decide)]

/-- C3 (amended): the daily calorie target is TDEE − 500 for Lose Weight
and TDEE + 300 for Gain Muscle; for every other goal value — including
Maintain Weight, Improve Health, and unrecognized values — the TDEE is
returned unchanged and no failure occurs. -/
theorem C3_goal_offsets : ∀ t : ℚ,
    goal_adjust t "Lose Weight" = t - 500 ∧
    goal_adjust t "Gain Muscle" = t + 300 ∧
    ∀ g : String, ¬g = "Lose Weight" → ¬g = "Gain Muscle" → goal_adjust t g = t := by
  intro t
  refine ⟨by simp [goal_adjust], by simp [goal_adjust], ?_⟩
  intro g h1 h2
  simp [goal_adjust, h1, h2]

/-- Witness for C3 at the two in-spec pass-through goals. -/
theorem C3_goal_offsets_witness :
    goal_adjust 2000 "Maintain Weight" = 2000 ∧
    goal_adjust 2000 "Improve Health" = 2000 :=
  ⟨(C3_goal_offsets 2000).2.2 "Maintain Weight" (by decide) (by decide),
   (C3_goal_offsets 2000).2.2 "Improve Health" (by decide) (by decide)⟩

/-- C4: BMI is weight over squared height-in-meters, and the category
follows the half-open intervals Underweight `< 18.5`,
Normal `[18.5, 25)`, Overweight `[25, 30)`, Obese `≥ 30`; in particular
18.5 is Normal, 25 is Overweight, 30 is Obese and 18.4999 is
Underweight. -/
theorem C4_bmi_and_category : ∀ w h : ℚ,
    bmi w h = w / ((h / 100) ^ 2) ∧
    (∀ b : ℚ,
      (b < 18.5 → bmi_category b = "Underweight") ∧
      (18.5 ≤ b → b < 25 → bmi_category b = "Normal") ∧
      (25 ≤ b → b < 30 → bmi_category b = "Overweight") ∧
      (30 ≤ b → bmi_category b = "Obese")) ∧
    bmi_category 18.5 = "Normal" ∧
    bmi_category 25 = "Overweight" ∧
    bmi_category 30 = "Obese" ∧
    bmi_category 18.4999 = "Underweight" := by
  intro w h
  refine ⟨rfl, ?_, by norm_num [bmi_category], by norm_num [bmi_category],
    by norm_num [bmi_category], by norm_num [bmi_category]⟩
  intro b
  refine ⟨?_, ?_, ?_, ?_⟩
  · intro hb
    have h1 : ¬((18.5 : ℚ) ≤ b ∧ b < 25) := fun hx => absurd hb (not_lt.mpr hx.1)
    simp only [bmi_category, if_neg h1, if_pos hb]
  · intro hb1 hb2
    have h1 : (18.5 : ℚ) ≤ b ∧ b < 25 := And.intro hb1 hb2
    simp only [bmi_category, if_pos h1]
  · intro hb1 hb2
    have h1 : ¬((18.5 : ℚ) ≤ b ∧ b < 25) := fun hx => absurd hb1 (not_le.mpr hx.2)
    have h2 : ¬b < 18.5 := not_lt.mpr (le_trans (by norm_num) hb1)
    simp only [bmi_category, if_neg h1, if_neg h2, if_pos hb2]
  · intro hb
    have h1 : ¬((18.5 : ℚ) ≤ b ∧ b < 25) := fun hx =>
      absurd (lt_of_le_of_lt hb hx.2) (by norm_num)
    have h2 : ¬b < 18.5 := not_lt.mpr (le_trans (by norm_num) hb)
    have h3 : ¬b < 30 := not_lt.mpr hb
    simp only [bmi_category, if_neg h1, if_neg h2, if_neg h3]

/-- Witness for C4 in each category band at a concrete BMI value. -/
theorem C4_bmi_and_category_witness :
    bmi_category 17 = "Underweight" ∧ bmi_category 22 = "Normal" ∧
    bmi_category 27 = "Overweight" ∧ bmi_category 31 = "Obese" :=
  ⟨((C4_bmi_and_category 70 175).2.1 17).1 (by norm_num),
   ((C4_bmi_and_category 70 175).2.1 22).2.1 (by norm_num) (by norm_num),
   ((C4_bmi_and_category 70 175).2.1 27).2.2.1 (by norm_num) (by norm_num),
   ((C4_bmi_and_category 70 175).2.1 31).2.2.2 (by norm_num)⟩

/-- C5: macro calories (grams times 4 or 9) equal calorieTarget × ratio
exactly; every row of the diet ratio table sums to 1; and an
unrecognized diet type falls back to the Balanced row
{0.5, 0.25, 0.25}. -/
theorem C5_macro_invariants :
    (∀ c r : ℚ,
      macro_grams c r Macro.Carbs = c * r / 4 ∧
      macro_grams c r Macro.Protein = c * r / 4 ∧
      macro_grams c r Macro.Fat = c * r / 9 ∧
      macro_calories c r Macro.Carbs = c * r ∧
      macro_calories c r Macro.Protein = c * r ∧
      macro_calories c r Macro.Fat = c * r) ∧
    (∀ (dt : String) (rt : MacroRatios),
      macro_splits dt = some rt → rt.carbs + rt.protein + rt.fat = 1) ∧
    (∀ dt : String, macro_splits dt = none →
      macros dt = ⟨0.5, 0.25, 0.25⟩) := by
  refine ⟨?_, ?_, ?_⟩
  · intro c r
    refine ⟨rfl, rfl, rfl, ?_, ?_, ?_⟩ <;>
      simp only [macro_calories, macro_grams] <;> ring
  · intro dt rt hdt
    simp only [macro_splits] at hdt
    split_ifs at hdt <;> cases hdt <;> norm_num
  · intro dt hdt
    simp only [macros, hdt]

/-- Witness for C5: the Keto row of the table sums to 1, and a concrete
unrecognized diet type gets the Balanced fallback. -/
theorem C5_macro_invariants_witness :
    macro_splits "Keto" = some ⟨0.05, 0.2, 0.75⟩ ∧
    ((0.05 : ℚ) + 0.2 + 0.75 = 1) ∧
    macro_splits "Pescatarian" = none ∧
    macros "Pescatarian" = ⟨0.5, 0.25, 0.25⟩ := by
  have hk : macro_splits "Keto" = some ⟨0.05, 0.2, 0.75⟩ := rfl
  have hp : macro_splits "Pescatarian" = none := rfl
  exact ⟨hk, C5_macro_invariants.2.1 "Keto" ⟨0.05, 0.2, 0.75⟩ hk,
    hp, C5_macro_invariants.2.2 "Pescatarian" hp⟩

/-- C6: appending to any readable prior state succeeds, and a subsequent
load returns the prior sequence with the new entry appended (so the last
element is the new entry and the length grew by one); a missing file
loads as the empty sequence without error, and appending to it creates a
file with exactly one entry. -/
theorem C6_append_load_roundtrip : ∀ (e : FoodLogEntry),
    (∀ (file : LogFile) (prior : List FoodLogEntry),
      loadAll file = Except.ok prior →
      (append e file).2 = Except.ok () ∧
      loadAll (append e file).1 = Except.ok (prior ++ [e]) ∧
      (prior ++ [e]).getLast? = some e ∧
      (prior ++ [e]).length = prior.length + 1) ∧
    loadAll LogFile.missing = Except.ok [] ∧
    append e LogFile.missing = (LogFile.stored [e], Except.ok ()) := by
  intro e
  refine ⟨?_, rfl, rfl⟩
  intro file prior hload
  have happ : append e file = (LogFile.stored (prior ++ [e]), Except.ok ()) := by
    unfold append
    rw [hload]
  refine ⟨by rw [happ], ?_, by simp, by simp⟩
  rw [happ]
  rfl

/-- Witness for C6 on a concrete one-entry log. -/
theorem C6_append_load_roundtrip_witness :
    loadAll (LogFile.stored [⟨"2024-01-01T08:00:00", "oatmeal", 350, "2024-01-01"⟩]) =
      Except.ok [⟨"2024-01-01T08:00:00", "oatmeal", 350, "2024-01-01"⟩] ∧
    loadAll (append ⟨"2024-01-01T12:30:00", "salad", 450, "2024-01-01"⟩
        (LogFile.stored [⟨"2024-01-01T08:00:00", "oatmeal", 350, "2024-01-01"⟩])).1 =
      Except.ok [⟨"2024-01-01T08:00:00", "oatmeal", 350, "2024-01-01"⟩,
        ⟨"2024-01-01T12:30:00", "salad", 450, "2024-01-01"⟩] :=
  ⟨rfl,
   ((C6_append_load_roundtrip ⟨"2024-01-01T12:30:00", "salad", 450, "2024-01-01"⟩).1
      (LogFile.stored [⟨"2024-01-01T08:00:00", "oatmeal", 350, "2024-01-01"⟩])
      [⟨"2024-01-01T08:00:00", "oatmeal", 350, "2024-01-01"⟩] rfl).2.1⟩

/-- C7: on a malformed log file both operations fail with the
persistence error — the append handler surfaces the error, does not
write, and leaves the file unchanged, and the summary loader surfaces
the same error instead of fabricating a default. -/
theorem C7_malformed_file_surfaces_error : ∀ (e : FoodLogEntry) (today : String),
    (append e LogFile.malformed).2 = Except.error PersistenceError.readError ∧
    (append e LogFile.malformed).1 = LogFile.malformed ∧
    loadAll LogFile.malformed = Except.error PersistenceError.readError ∧
    todaysSummary LogFile.malformed today = Except.error PersistenceError.readError := by
  intro e today
  exact ⟨rfl, rfl, rfl, rfl⟩

/-- C8: the summary consists of exactly the entries whose date equals the
target date (string equality), the total is their arithmetic calorie
sum, and the displayed list is the tail of the matches: a suffix of
length min 5 (number of matches), every element of which has the target
date. -/
theorem C8_summarize_day : ∀ (log : List FoodLogEntry) (today : String),
    (summarizeDay log today).1 =
      ((log.filter (fun e => e.date = today)).map (fun e => e.calories)).sum ∧
    (summarizeDay log today).2 =
      (log.filter (fun e => e.date = today)).drop
        ((log.filter (fun e => e.date = today)).length - 5) ∧
    (summarizeDay log today).2 <:+ log.filter (fun e => e.date = today) ∧
    (summarizeDay log today).2.length =
      min 5 (log.filter (fun e => e.date = today)).length ∧
    ∀ e ∈ (summarizeDay log today).2, e.date = today := by
  intro log today
  refine ⟨rfl, rfl, List.drop_suffix _ _, ?_, ?_⟩
  · show ((log.filter (fun e => e.date = today)).drop
        ((log.filter (fun e => e.date = today)).length - 5)).length = _
    rw [List.length_drop]
    omega
  · intro e he
    have hmem : e ∈ log.filter (fun e => e.date = today) :=
      List.mem_of_mem_drop he
    have := (List.mem_filter.mp hmem).2
    simpa using this

/-- Witness for C8 on a two-date log: a same-date entry is displayed and
its date matches the target. -/
theorem C8_summarize_day_witness :
    (summarizeDay
        [⟨"t1", "toast", 100, "2024-01-01"⟩, ⟨"t2", "rice", 200, "2024-01-02"⟩,
         ⟨"t3", "soup", 300, "2024-01-01"⟩] "2024-01-01").1 = 400 ∧
    (⟨"t3", "soup", 300, "2024-01-01"⟩ : FoodLogEntry) ∈
      (summarizeDay
        [⟨"t1", "toast", 100, "2024-01-01"⟩, ⟨"t2", "rice", 200, "2024-01-02"⟩,
         ⟨"t3", "soup", 300, "2024-01-01"⟩] "2024-01-01").2 ∧
    (⟨"t3", "soup", 300, "2024-01-01"⟩ : FoodLogEntry).date = "2024-01-01" := by
  have hmem : (⟨"t3", "soup", 300, "2024-01-01"⟩ : FoodLogEntry) ∈
      (summarizeDay
        [⟨"t1", "toast", 100, "2024-01-01"⟩, ⟨"t2", "rice", 200, "2024-01-02"⟩,
         ⟨"t3", "soup", 300, "2024-01-01"⟩] "2024-01-01").2 := by
    decide
  exact ⟨rfl, hmem,
    (C8_summarize_day
      [⟨"t1", "toast", 100, "2024-01-01"⟩, ⟨"t2", "rice", 200, "2024-01-02"⟩,
       ⟨"t3", "soup", 300, "2024-01-01"⟩] "2024-01-01").2.2.2.2 _ hmem⟩

/-- C9, counterexample: a gender value other than Male and Female
reaching the engine is not rejected — the else branch silently computes
the Female formula, and the whole pipeline succeeds. -/
theorem C9_unknown_gender_not_rejected :
    bmr 70 175 30 "Nonbinary" = bmr 70 175 30 "Female" ∧
    bmr 70 175 30 "Nonbinary" = 1507.133 ∧
    calculate_calories 70 175 30 "Nonbinary" "Sedentary" "Maintain Weight" =
      some 1808.5596 := by
  have h1 : bmr 70 175 30 "Nonbinary" = 1507.133 := by
    rw [bmr_of_ne_male (by decide)]; norm_num
  have h2 : bmr 70 175 30 "Female" = 1507.133 := by
    rw [bmr_of_ne_male (by decide)]; norm_num
  refine ⟨h1.trans h2.symm, h1, ?_⟩
  show (tdee (bmr 70 175 30 "Nonbinary") "Sedentary").map
      (fun t => goal_adjust t "Maintain Weight") = _
  rw [h1]
  norm_num [tdee, activity_mult, goal_adjust]
  rw [if_neg (by decide), if_neg (by decide)]

/-- C9 (amended): every gender value other than `"Male"` — including
`"Female"` and any unrecognized string — is computed with the Female
formula; the engine never rejects a gender value (unrecognized values
are prevented upstream by the two-entry selectbox). -/
theorem C9_non_male_gets_female_formula :
    ∀ (w h a : ℚ) (g : String), ¬g = "Male" →
      bmr w h a g = 447.593 + 9.247 * w + 3.098 * h - 4.330 * a := by
  intro w h a g hg
  exact bmr_of_ne_male hg w h a

/-- Witness for C9 at a concrete non-Male gender. -/
theorem C9_non_male_gets_female_formula_witness :
    ¬"Unspecified" = "Male" ∧
    bmr 1 1 1 "Unspecified" = 447.593 + 9.247 * 1 + 3.098 * 1 - 4.330 * 1 :=
  ⟨by decide, C9_non_male_gets_female_formula 1 1 1 "Unspecified" (by decide)⟩

/-- C10, counterexample: on a failed remote call `generate_meal_plan_ai`
returns `none` — no fallback string reaches the caller — and the string
`get_ai_response` returns embeds the exception text, so it is not a
fixed string across failures. -/
theorem C10_meal_plan_returns_none :
    generate_meal_plan_ai ClientState.ready (RemoteOutcome.failure "socket timeout") =
      none ∧
    get_ai_response ClientState.ready (RemoteOutcome.failure "socket timeout") ≠
      get_ai_response ClientState.ready (RemoteOutcome.failure "quota exceeded") := by
  exact ⟨rfl, by decide⟩

/-- C10 (amended): neither operation propagates a remote failure as an
exception. `get_ai_response` (ask) always returns a human-readable
string — a fixed one when the client is missing or the response has no
choices, and one embedding the exception text otherwise — while
`generate_meal_plan_ai` (planMeal) absorbs every failure by returning
`none`, upon which the dashboard keeps the static meal plan. -/
theorem C10_failures_absorbed : ∀ (call : RemoteOutcome) (m : String),
    get_ai_response ClientState.unavailable call =
      "AI service is currently unavailable. Please try again later." ∧
    generate_meal_plan_ai ClientState.unavailable call = none ∧
    get_ai_response ClientState.ready RemoteOutcome.emptyResponse =
      "I\x27m having trouble generating a response right now. Please try again." ∧
    generate_meal_plan_ai ClientState.ready RemoteOutcome.emptyResponse = none ∧
    get_ai_response ClientState.ready (RemoteOutcome.failure m) =
      "Sorry, I encountered an error: " ++ m ++ ". Please try again." ∧
    generate_meal_plan_ai ClientState.ready (RemoteOutcome.failure m) = none := by
  intro call m
  exact ⟨rfl, rfl, rfl, rfl, rfl, rfl⟩
